import Mathlib

/-!
Verification of the bootstrap and request-instrumentation layer of
kpi-echo-go (src/main.go) against its natural-language specification.

The whole repository is the single file src/main.go.  It declares two
prometheus metrics (a latency histogram and an error counter), a
metrics middleware for the echo framework, and a `main` function that
performs the startup sequence and serves.  All collaborators
(config, logger, repository, container, migration, router, middleware,
echo, prometheus client) are external library packages; where a claim
depends on their behaviour it is modelled from the spec and said so in
the corresponding doc comment.  Durations are rationals (seconds),
errors are an abstract type (Go `error` values are opaque here; `nil`
is `Option.none`).
-/

namespace KpiEcho

/-- State of a prometheus histogram metric (src/main.go lines 27-32):
metric name, help text, the ordered upper-bound buckets in seconds, the
per-bucket cumulative counts, the running sum of observations and the
total observation count. -/
structure Histogram where
  name : String
  help : String
  buckets : List ℚ
  bucketCounts : List ℕ
  sum : ℚ
  count : ℕ
  deriving Repr, DecidableEq

/-- State of a prometheus counter metric (src/main.go lines 34-37). -/
structure Counter where
  name : String
  help : String
  value : ℕ
  deriving Repr, DecidableEq

/-- Modelled from the spec and the prometheus client contract:
`Histogram.Observe v` folds one observation into the aggregate — every
bucket whose upper bound is at least `v` is incremented, and the running
sum and total count are each updated exactly once. -/
def Histogram.observe (h : Histogram) (v : ℚ) : Histogram :=
  { h with
    bucketCounts :=
      (h.buckets.zip h.bucketCounts).map fun p => if v ≤ p.1 then p.2 + 1 else p.2
    sum := h.sum + v
    count := h.count + 1 }

/-- Modelled from the spec and the prometheus client contract:
`Counter.Inc` adds one to the monotone counter. -/
def Counter.inc (c : Counter) : Counter :=
  { c with value := c.value + 1 }

/-- The constant `prometheus.DefBuckets` of the client library, the fixed default
upper bounds in seconds used by `requestDuration` (src/main.go line 31). -/
def defBuckets : List ℚ :=
  [5/1000, 1/100, 25/1000, 5/100, 1/10, 25/100, 5/10, 1, 25/10, 5, 10]

/-- The `requestDuration` histogram exactly as constructed at
src/main.go lines 28-32: name `http_request_duration_seconds`, the
default buckets, all aggregates zero. -/
def requestDuration : Histogram :=
  { name := "http_request_duration_seconds"
    help := "Duration of HTTP requests in seconds"
    buckets := defBuckets
    bucketCounts := List.replicate defBuckets.length 0
    sum := 0
    count := 0 }

/-- The `errorCounter` counter exactly as constructed at
src/main.go lines 34-37: name `http_errors_total`, value zero. -/
def errorCounter : Counter :=
  { name := "http_errors_total"
    help := "Total number of HTTP errors"
    value := 0 }

/-- The mutable state visible to the instrumentation middleware: the two
registered global metrics, plus two bookkeeping counters that record how
many times the downstream handler and the framework error hook
(`c.Error`) have been invoked, so that exactly-once properties are
expressible. -/
structure MWState where
  hist : Histogram
  errors : Counter
  nextCalls : ℕ
  cErrorCalls : ℕ
  deriving Repr, DecidableEq

/-- The state at the end of the package `init` function
(src/main.go lines 41-44): both freshly constructed metrics registered,
no handler or error-hook invocations yet. -/
def initState : MWState :=
  { hist := requestDuration
    errors := errorCounter
    nextCalls := 0
    cErrorCalls := 0 }

/-- An echo handler: given the externally measured wall-clock duration
of the request (what `time.Since(start).Seconds()` evaluates to) and the
current shared state, it returns the Go `error` result (`none` = nil)
and the updated shared state. -/
abbrev HandlerFn (ε : Type) := ℚ → MWState → Option ε × MWState

/-- A downstream handler abstracted, as in the spec, to a callable that
returns a success or failure indicator `r`; handlers outside the
instrumentation layer cannot touch the package-private metrics, so the
state is left unchanged (the middleware itself does all bookkeeping). -/
def pureHandler {ε : Type} (r : Option ε) : HandlerFn ε :=
  fun _ s => (r, s)

/-- The function `metricsMiddleware` (src/main.go lines 47-64), line by line:
capture a start timestamp; `err := next(c)` — invoke the downstream
handler once, recorded in `nextCalls`; if `err != nil` then `c.Error(err)`
(recorded in `cErrorCalls`) and `errorCounter.Inc()`;
`requestDuration.Observe(duration)` unconditionally; `return err`.
The elapsed duration `d` is supplied by the environment. -/
def metricsMiddleware {ε : Type} (next : HandlerFn ε) : HandlerFn ε :=
  fun d s =>
    let r := next d { s with nextCalls := s.nextCalls + 1 }
    let s1 :=
      match r.1 with
      | some _ =>
          { r.2 with cErrorCalls := r.2.cErrorCalls + 1, errors := r.2.errors.inc }
      | none => r.2
    (r.1, { s1 with hist := s1.hist.observe d })

/-- C3: for every request through `metricsMiddleware`, the error counter
grows by exactly 1 exactly when the downstream handler fails (and is
untouched on success), and the elapsed duration is recorded into the
latency histogram exactly once — total count up by one and sum up by the
duration — regardless of outcome. -/
theorem errorCount_iff_failure_latency_once {ε : Type} (r : Option ε) (d : ℚ)
    (s : MWState) :
    (metricsMiddleware (pureHandler r) d s).2.errors.value =
        s.errors.value + (if r.isSome then 1 else 0) ∧
    (metricsMiddleware (pureHandler r) d s).2.hist.count = s.hist.count + 1 ∧
    (metricsMiddleware (pureHandler r) d s).2.hist.sum = s.hist.sum + d := by
  cases r <;>
    simp [metricsMiddleware, pureHandler, Histogram.observe, Counter.inc]

/-- C4: the middleware is transparent — it invokes the downstream
handler exactly once (`nextCalls` grows by exactly 1) and returns to the
framework exactly the value the handler returned, success or failure. -/
theorem middleware_transparent {ε : Type} (r : Option ε) (d : ℚ) (s : MWState) :
    (metricsMiddleware (pureHandler r) d s).1 = r ∧
    (metricsMiddleware (pureHandler r) d s).2.nextCalls = s.nextCalls + 1 := by
  cases r <;>
    simp [metricsMiddleware, pureHandler, Histogram.observe, Counter.inc]

/-- C9: when the downstream handler returns a non-nil error, the
middleware both invokes the framework error hook `c.Error` directly
(exactly once) and still returns that same non-nil error to the
framework — so echo's error handling is triggered on both channels. -/
theorem cError_and_rethrow_on_failure {ε : Type} (e : ε) (d : ℚ) (s : MWState) :
    (metricsMiddleware (pureHandler (some e)) d s).1 = some e ∧
    (metricsMiddleware (pureHandler (some e)) d s).2.cErrorCalls =
      s.cErrorCalls + 1 := by
  simp [metricsMiddleware, pureHandler, Histogram.observe, Counter.inc]

/-- The observable steps of `main` (src/main.go lines 66-105), in source
order: echo construction, installation of the metrics middleware
(line 70), registration of the /prometheus route (line 73), the nine
startup collaborator calls (lines 76-91), the optional static mount
(lines 94-97), the blocking serve call (line 100), the error log when
the serve call returns an error (line 101), and the deferred
`rep.Close()` (line 104). -/
inductive Event where
  | newEcho
  | useMetricsMiddleware
  | registerPrometheusRoute
  | configLoad
  | newLogger
  | newBookRepository
  | newContainer
  | createDatabase
  | initMasterData
  | routerInit
  | initLoggerMiddleware
  | initSessionMiddleware
  | mountStatic
  | serveStart
  | logServeError
  | repClose
  deriving Repr, DecidableEq

/-- How one process execution of `main` ends.  `serveReturned err` means
the blocking `e.Start` call returned with Go error `err` (`none` = nil)
and control continued inside `main`.  `startupAborted k` means the
`k`-th startup collaborator call (0 = config.Load, 1 = NewLogger,
2 = NewBookRepository, 3 = NewContainer, 4 = CreateDatabase,
5 = InitMasterData, 6 = router.Init, 7 = InitLoggerMiddleware,
8 = InitSessionMiddleware) terminated the process internally
(`os.Exit` or a fatal panic inside the external collaborator —
src/main.go itself checks no startup error).  `killedBySignal` means the
process was terminated by an external signal while `e.Start` was
blocking; src/main.go installs no signal handler. -/
inductive ExitMode (ε : Type) where
  | serveReturned (err : Option ε)
  | startupAborted (k : ℕ)
  | killedBySignal

/-- One process execution's inputs.  The four error fields are modelled
from the spec's abstract collaborator signatures
(`Repository.Open(config) -> (handle, error)`,
`Migration.CreateSchema(context) -> error`,
`Migration.SeedMasterData(context) -> error`, and configuration
loading): the result each stage reports.  src/main.go invokes every
startup collaborator as a plain statement or plain assignment and never
inspects any reported error, so these fields exist only so that their
irrelevance to the control flow can be stated.  `staticPath` is
`conf.StaticContents.Path`; `exit` is how the execution ends. -/
structure MainInput (ε : Type) where
  configErr : Option ε
  repoOpenErr : Option ε
  migrateErr : Option ε
  seedErr : Option ε
  staticPath : String
  exit : ExitMode ε

/-- The three registrations `main` performs before any startup stage
(src/main.go lines 67-73). -/
def setupEvents : List Event :=
  [Event.newEcho, Event.useMetricsMiddleware, Event.registerPrometheusRoute]

/-- The nine startup collaborator calls of src/main.go lines 76-91, in
source order. -/
def startupEvents : List Event :=
  [Event.configLoad, Event.newLogger, Event.newBookRepository, Event.newContainer,
   Event.createDatabase, Event.initMasterData,
   Event.routerInit, Event.initLoggerMiddleware, Event.initSessionMiddleware]

/-- The error-log step of src/main.go line 101: when the serve call
returns a non-nil error, `main` logs it; when it returns nil, nothing
is logged. -/
def errLog {ε : Type} : Option ε → List Event
  | some _ => [Event.logServeError]
  | none => []

/-- The trace of one execution of `main`, following src/main.go
lines 66-105 statement by statement.  No startup call's reported error
is consulted, matching the source.  Go semantics of the exit modes: the
`defer rep.Close()` at line 104 is registered only when control reaches
line 104, which happens exactly when `e.Start` returns; a deferred call
that was never registered does not run, and deferred calls also do not
run on `os.Exit` or on death by signal.  Hence `repClose` appears only
on the `serveReturned` path; on `startupAborted k` the trace stops at
the aborting call, and on `killedBySignal` it ends at the blocking
serve call. -/
def mainTrace {ε : Type} (inp : MainInput ε) : List Event :=
  match inp.exit with
  | ExitMode.startupAborted k => setupEvents ++ startupEvents.take (k + 1)
  | ExitMode.killedBySignal =>
      setupEvents ++ startupEvents
        ++ (if inp.staticPath ≠ "" then [Event.mountStatic] else [])
        ++ [Event.serveStart]
  | ExitMode.serveReturned err =>
      setupEvents ++ startupEvents
        ++ (if inp.staticPath ≠ "" then [Event.mountStatic] else [])
        ++ [Event.serveStart] ++ errLog err ++ [Event.repClose]

/-- How many times `rep.Close()` runs in one execution. -/
def repCloseCount {ε : Type} (inp : MainInput ε) : ℕ :=
  (mainTrace inp).count Event.repClose

/-- The process exit code as determined by src/main.go: `main` never
calls `os.Exit` and returns normally on every path through it (a serve
error is only logged, line 101), and a Go process whose `main` returns
exits with code 0.  When a collaborator aborts the process internally or
a signal kills it, the code is determined outside src/main.go (`none`). -/
def exitCode {ε : Type} (inp : MainInput ε) : Option ℕ :=
  match inp.exit with
  | ExitMode.serveReturned _ => some 0
  | ExitMode.startupAborted _ => none
  | ExitMode.killedBySignal => none

/-- An execution in which every stage succeeds, no static path is
configured, and the serve call eventually returns echo's shutdown
error. -/
def gracefulInput : MainInput String :=
  { configErr := none
    repoOpenErr := none
    migrateErr := none
    seedErr := none
    staticPath := ""
    exit := ExitMode.serveReturned (some "http: Server closed") }

/-- Like `gracefulInput` but with a configured static-content path. -/
def gracefulStaticInput : MainInput String :=
  { gracefulInput with staticPath := "resources/public" }

/-- Like `gracefulInput` but schema migration reports a failure; since
src/main.go discards the migration result, execution continues
identically. -/
def migFailInput : MainInput String :=
  { gracefulInput with migrateErr := some "migration failed" }

/-- An execution killed by an external signal (e.g. SIGINT/SIGKILL)
while `e.Start` blocks. -/
def sigKillInput : MainInput String :=
  { gracefulInput with exit := ExitMode.killedBySignal }

/-- An execution aborted by the migration collaborator
(`CreateDatabase`, startup call 4) terminating the process. -/
def abortInput : MainInput String :=
  { gracefulInput with exit := ExitMode.startupAborted 4 }

/-- An execution in which `e.Start` returns an unrecoverable serve
error (listener bind failure). -/
def serveFailInput : MainInput String :=
  { gracefulInput with
    exit := ExitMode.serveReturned (some "listen tcp :8000: bind: address already in use") }

/-- C1: the claim that `rep.Close` runs exactly once on every exit path
is false — the deferred close at the last line of `main` runs only when
`e.Start` returns: it runs zero times when the process is killed by a
signal while serving, and zero times when a startup stage aborts, and
once only on the serve-return path. -/
theorem repClose_not_on_every_exit_path :
    repCloseCount sigKillInput = 0 ∧
    repCloseCount abortInput = 0 ∧
    repCloseCount gracefulInput = 1 := by
  decide

/-- C2, counterexample: schema migration reports failure, yet the trace
still reaches the serve call and still performs the later stages
(seeding, route registration) — src/main.go never checks the migration
result, so fail-fast does not hold as claimed. -/
theorem serving_reached_despite_migration_failure :
    migFailInput.migrateErr = some "migration failed" ∧
    Event.serveStart ∈ mainTrace migFailInput ∧
    Event.initMasterData ∈ mainTrace migFailInput ∧
    Event.routerInit ∈ mainTrace migFailInput := by
  refine ⟨rfl, ?_, ?_, ?_⟩ <;> decide

/-- C2, amended: the reported failures of configuration loading,
repository opening, migration and seeding have no effect whatsoever on
`main`'s control flow — the trace depends only on the static path and
the exit mode — and whenever the process is not aborted externally
(the serve call is reached and returns), the Serving stage is reached
regardless of any reported stage failure. -/
theorem stage_failures_ignored (inp1 inp2 : MainInput String)
    (hs : inp1.staticPath = inp2.staticPath) (he : inp1.exit = inp2.exit) :
    mainTrace inp1 = mainTrace inp2 ∧
    (∀ err : Option String, inp1.exit = ExitMode.serveReturned err →
      Event.serveStart ∈ mainTrace inp1) := by
  constructor
  · unfold mainTrace
    rw [hs, he]
  · intro err h
    unfold mainTrace
    rw [h]
    cases err <;> simp

/-- Witness for `stage_failures_ignored`: an execution with a reported
migration failure has the same trace as the all-success execution, and
reaches serving. -/
theorem stage_failures_ignored_witness :
    mainTrace migFailInput = mainTrace gracefulInput ∧
    Event.serveStart ∈ mainTrace migFailInput :=
  ⟨(stage_failures_ignored migFailInput gracefulInput rfl rfl).1,
   (stage_failures_ignored migFailInput gracefulInput rfl rfl).2
     (some "http: Server closed") rfl⟩

/-- C5, counterexample: on an unrecoverable serve error the claim
demands a non-zero exit code, but `main` merely logs the error and
returns, so the process exits with code 0. -/
theorem exit_code_zero_on_serve_error :
    serveFailInput.exit =
      ExitMode.serveReturned (some "listen tcp :8000: bind: address already in use") ∧
    exitCode serveFailInput = some 0 :=
  ⟨rfl, rfl⟩

/-- C5, amended: `main` returns normally on every path through it, so
whenever the serve call returns — graceful shutdown error or
unrecoverable serve error alike — the process exit code determined by
src/main.go is 0; a non-zero code can only ever be produced outside
src/main.go (a collaborator aborting, or signal death). -/
theorem exit_code_always_zero (inp : MainInput String) (err : Option String)
    (h : inp.exit = ExitMode.serveReturned err) :
    exitCode inp = some 0 := by
  unfold exitCode
  rw [h]

/-- Witness for `exit_code_always_zero` at the serve-error execution. -/
theorem exit_code_always_zero_witness : exitCode serveFailInput = some 0 :=
  exit_code_always_zero serveFailInput
    (some "listen tcp :8000: bind: address already in use") rfl

/-- The spec's claimed stage order for the ten startup stages that
src/main.go actually performs after its initial registrations. -/
def stageOrder : List Event :=
  [Event.configLoad, Event.newLogger, Event.newBookRepository, Event.newContainer,
   Event.createDatabase, Event.initMasterData,
   Event.routerInit, Event.initLoggerMiddleware, Event.initSessionMiddleware,
   Event.mountStatic, Event.serveStart]

/-- Predicate `ordered tr evs`: each event of `evs` occurs strictly
before the next one in the trace `tr` (by first occurrence). -/
def ordered (tr : List Event) : List Event → Bool
  | a :: b :: rest => Nat.blt (tr.indexOf a) (tr.indexOf b) && ordered tr (b :: rest)
  | _ => true

/-- C6, counterexample: the claim places the installation of the
instrumentation middleware inside the middleware-registration stage,
after route registration; in src/main.go it happens at line 70, before
route registration (line 89) and even before configuration loading
(line 76). -/
theorem metrics_middleware_installed_first :
    (mainTrace gracefulStaticInput).indexOf Event.useMetricsMiddleware <
      (mainTrace gracefulStaticInput).indexOf Event.configLoad ∧
    (mainTrace gracefulStaticInput).indexOf Event.useMetricsMiddleware <
      (mainTrace gracefulStaticInput).indexOf Event.routerInit := by
  decide

/-- C6, amended: in every execution in which the serve call is reached
(and a static path is configured so no stage is skipped), the ten
stages config-load, logger, repository, container, migrate, seed,
routes, logging middleware, session middleware, static mount, serve
occur in exactly this order and each exactly once; the instrumentation
middleware, however, is installed before all of them — before
configuration loading — which does place it ahead of every other
middleware, so it times the full request including downstream
middleware. -/
theorem startup_stage_order (c r m sd : Option String) (p : String)
    (err : Option String) (hs : p ≠ "") :
    ordered (mainTrace ⟨c, r, m, sd, p, ExitMode.serveReturned err⟩)
      stageOrder = true ∧
    (∀ ev ∈ stageOrder,
      (mainTrace ⟨c, r, m, sd, p, ExitMode.serveReturned err⟩).count ev = 1) ∧
    (mainTrace ⟨c, r, m, sd, p, ExitMode.serveReturned err⟩).indexOf
        Event.useMetricsMiddleware <
      (mainTrace ⟨c, r, m, sd, p, ExitMode.serveReturned err⟩).indexOf
        Event.configLoad ∧
    (mainTrace ⟨c, r, m, sd, p, ExitMode.serveReturned err⟩).indexOf
        Event.useMetricsMiddleware <
      (mainTrace ⟨c, r, m, sd, p, ExitMode.serveReturned err⟩).indexOf
        Event.initLoggerMiddleware := by
  simp only [mainTrace]
  rw [if_pos hs]
  cases err <;> simp only [errLog] <;> decide

/-- Witness for `startup_stage_order` at the graceful execution with a
configured static path. -/
theorem startup_stage_order_witness :
    ordered (mainTrace gracefulStaticInput) stageOrder = true ∧
    (∀ ev ∈ stageOrder, (mainTrace gracefulStaticInput).count ev = 1) ∧
    (mainTrace gracefulStaticInput).indexOf Event.useMetricsMiddleware <
      (mainTrace gracefulStaticInput).indexOf Event.configLoad ∧
    (mainTrace gracefulStaticInput).indexOf Event.useMetricsMiddleware <
      (mainTrace gracefulStaticInput).indexOf Event.initLoggerMiddleware :=
  startup_stage_order none none none none "resources/public"
    (some "http: Server closed") (by decide)

/-- Modelled from the spec: the text exposition format renders a
counter as HELP and TYPE header lines followed by one sample line. -/
def Counter.render (c : Counter) : List String :=
  ["# HELP " ++ c.name ++ " " ++ c.help,
   "# TYPE " ++ c.name ++ " counter",
   c.name ++ " " ++ toString c.value]

/-- Modelled from the spec: the text exposition format renders a
histogram as HELP and TYPE header lines, one cumulative sample line per
upper-bound bucket, and the sum and count sample lines. -/
def Histogram.render (h : Histogram) : List String :=
  ["# HELP " ++ h.name ++ " " ++ h.help,
   "# TYPE " ++ h.name ++ " histogram"]
  ++ ((h.buckets.zip h.bucketCounts).map fun p =>
        h.name ++ "_bucket\x7ble=\x22" ++ toString p.1 ++ "\x22\x7d " ++ toString p.2)
  ++ [h.name ++ "_sum " ++ toString h.sum,
      h.name ++ "_count " ++ toString h.count]

/-- Modelled from the spec: the body served by `promhttp.Handler()`
(src/main.go line 73) — the snapshot of every metric registered by the
package `init` function (`requestDuration` then `errorCounter`,
src/main.go lines 41-44), in the line-oriented text exposition
format. -/
def promBody (s : MWState) : List String :=
  s.hist.render ++ s.errors.render

/-- Modelled from the spec: the /prometheus route handler
`echo.WrapHandler(promhttp.Handler())` reads the registry and writes the
snapshot; it returns a nil error and does not mutate the metrics. -/
def promHandler {ε : Type} : HandlerFn ε :=
  fun _ s => (none, s)

/-- Modelled from the spec: `middleware.InitLoggerMiddleware` installs
an out-of-scope request-logging middleware, a collaborator that forwards
every request downstream and does not touch the metrics state. -/
def requestLoggerMiddleware {ε : Type} (next : HandlerFn ε) : HandlerFn ε :=
  next

/-- Modelled from the spec: `middleware.InitSessionMiddleware` installs
an out-of-scope session middleware, a collaborator that forwards every
request downstream and does not touch the metrics state. -/
def sessionMiddleware {ε : Type} (next : HandlerFn ε) : HandlerFn ε :=
  next

/-- An echo server: the globally installed middleware in registration
order and the route table (method, path, handler). -/
structure EchoServer (ε : Type) where
  middlewares : List (HandlerFn ε → HandlerFn ε)
  routes : List (String × String × HandlerFn ε)

/-- Modelled from the spec and the echo framework contract: serving a
request resolves the route (falling back to a no-op not-found handler),
then applies every globally installed middleware, the first-installed
outermost. -/
def dispatch {ε : Type} (srv : EchoServer ε) (method path : String) (d : ℚ)
    (s : MWState) : Option ε × MWState :=
  let h :=
    match srv.routes.find? fun rt => rt.1 == method && rt.2.1 == path with
    | some rt => rt.2.2
    | none => fun _ st => (none, st)
  (srv.middlewares.foldr (fun mw k => mw k) h) d s

/-- The server `main` assembles (src/main.go lines 67-91): the metrics
middleware installed first (line 70), then the logging and session
middlewares (lines 90-91); the /prometheus route registered at line 73
(the out-of-scope application routes of `router.Init` are not
modelled). -/
def mainServer (ε : Type) : EchoServer ε :=
  { middlewares := [metricsMiddleware, requestLoggerMiddleware, sessionMiddleware]
    routes := [("GET", "/prometheus", promHandler)] }

/-- C8: the metrics read endpoint is the route `GET /prometheus`; it
serves, in the line-oriented text exposition format, the latency
histogram named `http_request_duration_seconds` with the fixed
default upper-bound buckets in seconds, and the counter named
`http_errors_total`. -/
theorem metrics_endpoint_exposition :
    requestDuration.name = "http_request_duration_seconds" ∧
    requestDuration.buckets = defBuckets ∧
    defBuckets.length = 11 ∧
    errorCounter.name = "http_errors_total" ∧
    ((mainServer String).routes.find? fun rt =>
        rt.1 == "GET" && rt.2.1 == "/prometheus").isSome = true ∧
    "# TYPE http_request_duration_seconds histogram" ∈ promBody initState ∧
    "# TYPE http_errors_total counter" ∈ promBody initState := by
  refine ⟨rfl, rfl, rfl, rfl, rfl, ?_, ?_⟩ <;> decide

/-- C10: requests to the metrics endpoint itself pass through the
instrumentation middleware — `e.Use(metricsMiddleware)` at line 70
precedes the route registration at line 73 and applies to every route —
so each scrape of `GET /prometheus` increments the latency histogram's
total count by exactly 1. -/
theorem prometheus_scrape_counted :
    (∀ (d : ℚ) (s : MWState),
      ((dispatch (mainServer String) "GET" "/prometheus" d s).2).hist.count =
        s.hist.count + 1) ∧
    (mainTrace gracefulInput).indexOf Event.useMetricsMiddleware <
      (mainTrace gracefulInput).indexOf Event.registerPrometheusRoute := by
  constructor
  · intro d s
    rfl
  · decide

end KpiEcho
